import Mathlib

/-!
Verification of the resilient polling-and-publish sidecar
(`scripts/public_ip.py`, `scripts/current_time.py`, `whatsmyip.py`,
`scripts/whatsmyip.py`): a shallow embedding of the IP probe, the
Redis connection lifecycle, the publish retry pipeline, the main poll
loop, and the background IP monitor, together with theorems settling
the specification's claims about them.

External effects (HTTP requests, Redis `set` calls, pings, fresh
connection attempts) are supplied as explicit oracles; `time.sleep`
calls and store write attempts are recorded as events so that
scheduling and write-count properties can be stated.
-/

namespace Multiarch

/-- Outcome of one HTTP request to a lookup endpoint, as distinguished by
the `try`/`except` clauses of the probes: a `requests.Timeout`, another
`requests.RequestException`, any other exception, or a response carrying
a status code and a body text. -/
inductive ReqOutcome where
  | timeout
  | reqError
  | otherExc
  | response (status : Nat) (body : String)
deriving DecidableEq

/-- Characters removed by Python `str.strip()`, modelled as whitespace
trimming on the character list of the string. -/
def pyStripChars (l : List Char) : List Char :=
  ((l.dropWhile Char.isWhitespace).reverse.dropWhile Char.isWhitespace).reverse

/-- Python `response.text.strip()`. -/
def pyStrip (s : String) : String := String.mk (pyStripChars s.data)

/-- Length of Python `s.split('.')`: always one more than the number of
dots in `s`, counting empty fields. -/
def dotSplitLen (s : String) : Nat := s.data.count '.' + 1

/-- The acceptance test of `get_public_ip` in `scripts/public_ip.py`:
`if ip and len(ip.split('.')) == 4` — a non-empty body whose dot-split
has exactly four fields. -/
def isValidIp (s : String) : Bool := (!s.data.isEmpty) && (dotSplitLen s == 4)

namespace PublicIp

/-- The fixed, ordered lookup endpoint list of `scripts/public_ip.py`
(the same list appears in both `whatsmyip.py` variants). -/
def ip_services : List String :=
  ["https://api.ipify.org?format=text", "https://ifconfig.me/ip",
   "https://icanhazip.com"]

/-- The inner attempt loop of `get_public_ip` for one service.  `svc a`
is the outcome of the request made at attempt index `a`; `remaining` is
the number of attempts left (`max_retries - attempt`).  A 200 response
whose stripped body passes `isValidIp` is returned; an invalid or
non-200 response falls through to the next attempt; a timeout sleeps
`2 ^ attempt` seconds and retries the same service unless it was the
last attempt; any other request error or unexpected exception abandons
the service at once (`break`).  Returns the accepted address, if any,
and the list of backoff sleeps performed, in order. -/
def serviceLoop (svc : Nat → ReqOutcome) (attempt remaining : Nat) :
    Option String × List Nat :=
  match remaining with
  | 0 => (none, [])
  | r + 1 =>
    match svc attempt with
    | .response status body =>
      if status == 200 then
        let ip := pyStrip body
        if isValidIp ip then (some ip, [])
        else serviceLoop svc (attempt + 1) r
      else serviceLoop svc (attempt + 1) r
    | .timeout =>
      if 0 < r then
        let p := serviceLoop svc (attempt + 1) r
        (p.1, 2 ^ attempt :: p.2)
      else (none, [])
    | .reqError => (none, [])
    | .otherExc => (none, [])

/-- `get_public_ip(max_retries)` of `scripts/public_ip.py`, over an
abstract ordered list of services, each given by its per-attempt request
outcomes.  Services are consulted in order; the first service whose
attempt loop accepts an address wins; if every service is exhausted the
probe returns `none` (it never raises). -/
def get_public_ip (services : List (Nat → ReqOutcome)) (maxRetries : Nat) :
    Option String :=
  match services with
  | [] => none
  | svc :: rest =>
    match (serviceLoop svc 0 maxRetries).1 with
    | some ip => some ip
    | none => get_public_ip rest maxRetries

/-- Python exception classes distinguished by the handlers of
`get_redis_client` and `post_to_redis`: `ValueError` (from `int`),
`redis.ConnectionError`, and any other exception (for example the
`AttributeError` raised by calling `.set` on `None`). -/
inductive PyExc where
  | valueError
  | connectionError
  | otherExc
deriving DecidableEq

/-- Result of constructing `redis.Redis(...)` and pinging it once: a
fresh client handle, a `redis.ConnectionError`, or another exception. -/
inductive ConnectOutcome where
  | success (c : Nat)
  | connError
  | otherError
deriving DecidableEq

/-- Outcome of one `redis_client.set(key, value)` call on a live
handle. -/
inductive SetOutcome where
  | ok
  | connError
  | otherError
deriving DecidableEq

/-- Numeric value of a digit string. -/
def digitsVal (l : List Char) : Nat :=
  l.foldl (fun n c => 10 * n + (c.toNat - 48)) 0

/-- Python `int(s)`: after stripping whitespace, an optional sign
followed by a non-empty digit string; anything else raises
`ValueError`, modelled as `none`. -/
def pyInt (s : String) : Option Int :=
  match pyStripChars s.data with
  | [] => none
  | '-' :: ds =>
    if !ds.isEmpty && ds.all Char.isDigit then some (-(digitsVal ds : Int))
    else none
  | '+' :: ds =>
    if !ds.isEmpty && ds.all Char.isDigit then some ((digitsVal ds : Int))
    else none
  | ds =>
    if ds.all Char.isDigit then some ((digitsVal ds : Int)) else none

/-- The module-global Redis state together with the oracles for the
external world: the cached `_redis_client` handle, the current liveness
of each handle as seen by `ping()`, the `REDIS_HOST` and `REDIS_PORT`
environment values, and the queue of outcomes of successive fresh
connection attempts (each `redis.Redis(...)` construction plus its
test `ping()` consumes one entry — one unit of store network I/O). -/
structure RWorld where
  cache : Option Nat
  pingOk : Nat → Bool
  host : Option String
  portStr : String
  connects : List ConnectOutcome

/-- Python truthiness of the `REDIS_HOST` value: unset or empty is
falsy (`if not redis_host`). -/
def hostTruthy : Option String → Bool
  | none => false
  | some s => !s.data.isEmpty

/-- The body of the `try:` block of `get_redis_client` that reads the
configuration and connects: `int(REDIS_PORT)` runs first and may raise
`ValueError`; a falsy host returns `None` without any network I/O;
otherwise one fresh connection outcome is consumed, raising on failure.
The error case carries the world as left at the raise. -/
def connect_try (w : RWorld) : Except (PyExc × RWorld) (Option Nat × RWorld) :=
  match pyInt w.portStr with
  | none => .error (.valueError, w)
  | some _ =>
    if hostTruthy w.host then
      match w.connects with
      | [] => .error (.connectionError, w)
      | o :: rest =>
        let w2 : RWorld := { w with connects := rest }
        match o with
        | .success c => .ok (some c, { w2 with cache := some c })
        | .connError => .error (.connectionError, w2)
        | .otherError => .error (.otherExc, w2)
    else .ok (none, w)

/-- The `except` clauses of `get_redis_client`: both the
`redis.ConnectionError` handler and the catch-all handler return
`None`. -/
def connect_catch (w : RWorld) : Option Nat × RWorld :=
  match connect_try w with
  | .ok r => r
  | .error (_, w2) => (none, w2)

/-- `get_redis_client` of `scripts/public_ip.py` (identical in
`scripts/current_time.py`): a truthy cached client is pinged and reused
when healthy; on a failed ping the handle is discarded
(`_redis_client = None`) and a fresh connect is attempted; with no
cached client the fresh-connect body runs directly, every exception
being caught. -/
def get_redis_client (w : RWorld) : Option Nat × RWorld :=
  match w.cache with
  | some c =>
    if w.pingOk c then (some c, w)
    else connect_catch { w with cache := none }
  | none => connect_catch w

/-- Events of one `post_to_redis` call: a `set` attempt on a client
handle (or on `None`), a reconnection request (`get_redis_client`),
and a backoff sleep. -/
inductive PubEvent where
  | setAttempt (attempt : Nat) (client : Option Nat)
  | reconnect (attempt : Nat)
  | sleep (secs : Nat)
deriving DecidableEq

/-- The retry loop of `post_to_redis`.  `so a c` is the outcome of the
`set` call at attempt `a` on client handle `c`; a `set` on `None`
raises an `AttributeError`, a non-connection exception.  A success
returns at once; a non-connection exception returns failure at once;
a `redis.ConnectionError` with retries left first asks
`get_redis_client` for a re-established connection, sleeps
`2 ^ attempt` seconds only when that reconnection fails, and retries
with the new handle (never resending over the old one). -/
def post_loop (so : Nat → Nat → SetOutcome) (w : RWorld) (client : Option Nat)
    (attempt remaining : Nat) : Bool × RWorld × List PubEvent :=
  match remaining with
  | 0 => (false, w, [])
  | r + 1 =>
    let outcome := match client with
      | none => SetOutcome.otherError
      | some c => so attempt c
    let ev := PubEvent.setAttempt attempt client
    match outcome with
    | .ok => (true, w, [ev])
    | .otherError => (false, w, [ev])
    | .connError =>
      if 0 < r then
        match get_redis_client w with
        | (none, w2) =>
          let p := post_loop so w2 none (attempt + 1) r
          (p.1, p.2.1, ev :: .reconnect attempt :: .sleep (2 ^ attempt) :: p.2.2)
        | (some c2, w2) =>
          let p := post_loop so w2 (some c2) (attempt + 1) r
          (p.1, p.2.1, ev :: .reconnect attempt :: p.2.2)
      else (false, w, [ev])

/-- `post_to_redis(redis_client, data, max_retries)` of
`scripts/public_ip.py` (the same retry structure as in
`scripts/current_time.py`): a falsy client argument first asks
`get_redis_client` for a connection and reports failure immediately —
with no `set` attempt, no retry and no sleep — when none is available
(the unconfigured-store path). -/
def post_to_redis (so : Nat → Nat → SetOutcome) (w : RWorld)
    (client : Option Nat) (maxRetries : Nat) : Bool × RWorld × List PubEvent :=
  match client with
  | some c => post_loop so w (some c) 0 maxRetries
  | none =>
    match get_redis_client w with
    | (none, w2) => (false, w2, [])
    | (some c, w2) => post_loop so w2 (some c) 0 maxRetries

/-- Number of `set` attempts (store write attempts) in an event list. -/
def setCount (evs : List PubEvent) : Nat :=
  evs.countP (fun e => match e with | .setAttempt _ _ => true | _ => false)

/-- The mutable per-loop state of `main` in `scripts/public_ip.py`. -/
structure LoopState where
  consecutive_errors : Nat
  last_successful_ip : Option String
deriving DecidableEq

/-- What the body of one `while True` iteration encounters: an
exception escaping the body, `get_public_ip()` returning `None`, or a
probe result `ip` together with the value `pubOk` that
`post_to_redis` returns if it is called. -/
inductive IterInput where
  | exc
  | probeFail
  | probeOk (ip : String) (pubOk : Bool)
deriving DecidableEq

/-- Events of one loop iteration: a `time.sleep` and a `post_to_redis`
call (a store write attempt) with its result. -/
inductive LoopEvent where
  | sleep (secs : Nat)
  | publishAttempt (ip : String) (ok : Bool)
deriving DecidableEq

/-- One iteration of the main loop of `scripts/public_ip.py`
(`threshold` is `max_consecutive_errors = 10`, `interval` is
`sleep_interval = 60`).  A probe success with an unchanged IP skips the
publish and resets the counter; a changed IP is published, on success
updating `last_successful_ip` and resetting the counter, on failure
incrementing it; a probe failure increments it; all of these then sleep
the fixed `interval`.  Only an exception escaping the body reaches the
backoff policy: the counter is incremented, and at or above the
threshold the loop sleeps the 300-second cooldown and resets the
counter to 0 (also refreshing the Redis client), otherwise it sleeps
`min(2 ^ counter, 60)` seconds in place of the schedule sleep. -/
def loopStep (threshold interval : Nat) (s : LoopState) :
    IterInput → LoopState × List LoopEvent
  | .exc =>
    let e := s.consecutive_errors + 1
    if threshold ≤ e then
      ({ s with consecutive_errors := 0 }, [.sleep 300])
    else
      ({ s with consecutive_errors := e }, [.sleep (min (2 ^ e) 60)])
  | .probeFail =>
    ({ s with consecutive_errors := s.consecutive_errors + 1 },
      [.sleep interval])
  | .probeOk ip pubOk =>
    if s.last_successful_ip = some ip then
      ({ s with consecutive_errors := 0 }, [.sleep interval])
    else if pubOk then
      ({ consecutive_errors := 0, last_successful_ip := some ip },
        [.publishAttempt ip true, .sleep interval])
    else
      ({ s with consecutive_errors := s.consecutive_errors + 1 },
        [.publishAttempt ip false, .sleep interval])

/-- Run the main loop over a list of iteration inputs, collecting the
events of every iteration in order. -/
def loopRun (threshold interval : Nat) (s : LoopState) :
    List IterInput → LoopState × List LoopEvent
  | [] => (s, [])
  | i :: is =>
    let p := loopStep threshold interval s i
    let q := loopRun threshold interval p.1 is
    (q.1, p.2 ++ q.2)

/-- Number of publish attempts (store write attempts) in a loop event
list. -/
def publishCount (evs : List LoopEvent) : Nat :=
  evs.countP (fun e => match e with | .publishAttempt _ _ => true | _ => false)

end PublicIp

namespace WhatsMyIp

namespace IPMonitor

/-- `IPMonitor.get_public_ip` of `whatsmyip.py` (identical in
`scripts/whatsmyip.py`): one request per service in order; a 200
response with a non-empty stripped body is returned with no further
validation; any exception, a non-200 status or an empty body moves on
to the next service; `none` when every service failed. -/
def get_public_ip (outcomes : List ReqOutcome) : Option String :=
  match outcomes with
  | [] => none
  | o :: rest =>
    match o with
    | .response status body =>
      if status == 200 then
        let ip := pyStrip body
        if ip.data.isEmpty then get_public_ip rest else some ip
      else get_public_ip rest
    | _ => get_public_ip rest

end IPMonitor

/-- Discrete-time model of `monitor_loop` in `IPMonitor.start_monitoring`
(`while self.running: time.sleep(self.check_interval); if self.running:
self.check_ip()`): started at time 0, the thread sleeps whole
`interval`-second intervals and observes the `running` flag only when a
sleep ends, at the wake instants `interval, 2*interval, …`; nothing
aborts a sleep early.  For a stop flag set at `stopTime > 0`, the
thread exits at the first wake instant at or after `stopTime`. -/
def threadExitTime (interval stopTime : Nat) : Nat :=
  if stopTime % interval == 0 then stopTime
  else (stopTime / interval + 1) * interval

/-- `IPMonitor.stop_monitoring`: sets `self.running = False` at
`stopTime` and calls `self.thread.join(timeout=2)` — it returns when
the thread exits or after 2 seconds, whichever comes first, and never
kills the thread. -/
def stopReturnTime (interval stopTime : Nat) : Nat :=
  min (threadExitTime interval stopTime) (stopTime + 2)

end WhatsMyIp

namespace PublicIp

/-- Helper: every address accepted by the attempt loop of the
publishing probe passed the `isValidIp` check. -/
theorem serviceLoop_valid (svc : Nat → ReqOutcome) :
    ∀ remaining attempt ip,
      (serviceLoop svc attempt remaining).1 = some ip → isValidIp ip = true := by
  intro remaining
  induction remaining with
  | zero => intro a ip h; simp [serviceLoop] at h
  | succ r ih =>
    intro a ip h
    unfold serviceLoop at h
    cases hsvc : svc a with
    | response status body =>
      rw [hsvc] at h
      by_cases h200 : status == 200
      · simp only [h200, if_true] at h
        by_cases hv : isValidIp (pyStrip body)
        · simp only [hv, if_true] at h
          cases h
          exact hv
        · simp only [hv, Bool.false_eq_true, if_false] at h
          exact ih (a + 1) ip h
      · simp only [h200, Bool.false_eq_true, if_false] at h
        exact ih (a + 1) ip h
    | timeout =>
      rw [hsvc] at h
      by_cases hr : 0 < r
      · simp only [hr, if_true] at h
        exact ih (a + 1) ip h
      · simp only [hr, if_false] at h
        simp at h
    | reqError => rw [hsvc] at h; simp at h
    | otherExc => rw [hsvc] at h; simp at h

/-- Helper: every address returned by the publishing probe passed the
`isValidIp` check. -/
theorem get_public_ip_valid (services : List (Nat → ReqOutcome))
    (maxRetries : Nat) :
    ∀ ip, get_public_ip services maxRetries = some ip → isValidIp ip = true := by
  induction services with
  | nil => intro ip h; simp [get_public_ip] at h
  | cons svc rest ih =>
    intro ip h
    unfold get_public_ip at h
    cases hs : (serviceLoop svc 0 maxRetries).1 with
    | some ip2 =>
      rw [hs] at h
      cases h
      exact serviceLoop_valid svc maxRetries 0 ip hs
    | none =>
      rw [hs] at h
      exact ih ip h

/-- Helper: the publishing probe returns `none` when every service is
exhausted without an accepted address. -/
theorem get_public_ip_exhausted (maxR : Nat) :
    ∀ services : List (Nat → ReqOutcome),
      (∀ s ∈ services, (serviceLoop s 0 maxR).1 = none) →
      get_public_ip services maxR = none := by
  intro services
  induction services with
  | nil => intro _; rfl
  | cons svc rest ih =>
    intro h
    unfold get_public_ip
    rw [h svc (by simp)]
    exact ih fun s hs => h s (by simp [hs])

theorem publishCount_nil : publishCount [] = 0 := rfl

theorem publishCount_append (l1 l2 : List LoopEvent) :
    publishCount (l1 ++ l2) = publishCount l1 + publishCount l2 := by
  simp [publishCount, List.countP_append]

theorem publishCount_sleep (t : Nat) (l : List LoopEvent) :
    publishCount (.sleep t :: l) = publishCount l := by
  simp [publishCount, List.countP_cons]

theorem publishCount_pub (ip : String) (ok : Bool) (l : List LoopEvent) :
    publishCount (.publishAttempt ip ok :: l) = publishCount l + 1 := by
  simp [publishCount, List.countP_cons]

/-- Helper: with `last_successful_ip = ip` already cached, a run of
iterations all probing the same `ip` does no store write and keeps the
cached value (the change-detection skip path). -/
theorem loopRun_skip (ip : String) (b : Bool) :
    ∀ n s, s.last_successful_ip = some ip →
      publishCount (loopRun 10 60 s (List.replicate n (.probeOk ip b))).2 = 0 ∧
      (loopRun 10 60 s (List.replicate n (.probeOk ip b))).1.last_successful_ip
        = some ip := by
  intro n
  induction n with
  | zero =>
    intro s h
    exact ⟨rfl, h⟩
  | succ m ih =>
    intro s h
    have hstep : loopStep 10 60 s (.probeOk ip b)
        = ({ s with consecutive_errors := 0 }, [.sleep 60]) := by
      simp [loopStep, h]
    have h2 := ih { s with consecutive_errors := 0 } h
    simp only [List.replicate_succ, loopRun, hstep]
    rw [publishCount_append, publishCount_sleep, publishCount_nil]
    refine ⟨?_, h2.2⟩
    omega

/-- Helper: a run of iterations whose publish attempts all fail (for
example because the store is unconfigured) increments the failure
counter once per iteration, never updates `last_successful_ip`, and
sleeps only the fixed 60-second schedule interval — it never reaches
the 300-second cooldown and never stops. -/
theorem loopRun_pubfail (ip : String) :
    ∀ n s, s.last_successful_ip ≠ some ip →
      (loopRun 10 60 s (List.replicate n (.probeOk ip false))).1.consecutive_errors
        = s.consecutive_errors + n ∧
      (loopRun 10 60 s (List.replicate n (.probeOk ip false))).1.last_successful_ip
        = s.last_successful_ip ∧
      ((loopRun 10 60 s (List.replicate n (.probeOk ip false))).2.all
        (fun e => match e with | .sleep t => t == 60 | _ => true)) = true := by
  intro n
  induction n with
  | zero =>
    intro s h
    exact ⟨rfl, rfl, rfl⟩
  | succ m ih =>
    intro s h
    have hstep : loopStep 10 60 s (.probeOk ip false)
        = ({ s with consecutive_errors := s.consecutive_errors + 1 },
           [.publishAttempt ip false, .sleep 60]) := by
      simp [loopStep, h]
    have h2 := ih { s with consecutive_errors := s.consecutive_errors + 1 } h
    simp only [List.replicate_succ, loopRun, hstep]
    refine ⟨?_, h2.2.1, ?_⟩
    · have h3 : ({ s with consecutive_errors := s.consecutive_errors + 1 }
          : LoopState).consecutive_errors = s.consecutive_errors + 1 := rfl
      rw [h2.1, h3]
      omega
    · simp only [List.all_append, List.all_cons, List.all_nil]
      rw [h2.2.2]
      rfl

theorem setCount_nil : setCount [] = 0 := rfl

theorem setCount_set (a : Nat) (c : Option Nat) (l : List PubEvent) :
    setCount (.setAttempt a c :: l) = setCount l + 1 := by
  simp [setCount, List.countP_cons]

theorem setCount_reconnect (a : Nat) (l : List PubEvent) :
    setCount (.reconnect a :: l) = setCount l := by
  simp [setCount, List.countP_cons]

theorem setCount_sleep (t : Nat) (l : List PubEvent) :
    setCount (.sleep t :: l) = setCount l := by
  simp [setCount, List.countP_cons]

/-- Helper: the publish retry loop makes at most `remaining` store
write attempts. -/
theorem setCount_post_loop_le (so : Nat → Nat → SetOutcome) :
    ∀ r w cl a, setCount (post_loop so w cl a r).2.2 ≤ r := by
  intro r
  induction r with
  | zero =>
    intro w cl a
    simp [post_loop, setCount]
  | succ r ih =>
    intro w cl a
    rcases cl with _ | c
    · simp [post_loop, setCount_set, setCount_nil]
    · cases hso : so a c with
      | ok => simp [post_loop, hso, setCount_set, setCount_nil]
      | otherError => simp [post_loop, hso, setCount_set, setCount_nil]
      | connError =>
        by_cases hr : 0 < r
        · rcases hg : get_redis_client w with ⟨g1, w2⟩
          cases g1 with
          | none =>
            have h := ih w2 none (a + 1)
            simp only [post_loop, hso, hr, if_true, hg, setCount_set,
              setCount_reconnect, setCount_sleep]
            omega
          | some c2 =>
            have h := ih w2 (some c2) (a + 1)
            simp only [post_loop, hso, hr, if_true, hg, setCount_set,
              setCount_reconnect]
            omega
        · have hr0 : r = 0 := by omega
          subst hr0
          simp [post_loop, hso, setCount_set, setCount_nil]

/-- C1 (counterexample): the claim asserts that EVERY failing iteration
— including a probe failure — with post-increment counter `f` sleeps
`min(2^f, 60)` in place of the 60-second schedule sleep when
`f < 10`, and sleeps the 300-second cooldown and resets the counter
when `f` reaches 10, "in particular on the 10th consecutive probe
failure".  In the code the backoff policy lives only in the exception
handler: a probe-failure iteration falls through to the normal
60-second schedule sleep.  At counter 9 the 10th consecutive probe
failure sleeps 60 seconds (not 300) and leaves the counter at 10 (not
0); at counter 1 a probe failure sleeps 60 seconds, not
`min(2^2, 60) = 4`. -/
theorem C1_counterexample :
    loopStep 10 60 ⟨9, none⟩ .probeFail = (⟨10, none⟩, [.sleep 60]) ∧
    (loopStep 10 60 ⟨9, none⟩ .probeFail).2 ≠ [.sleep 300] ∧
    (loopStep 10 60 ⟨9, none⟩ .probeFail).1.consecutive_errors ≠ 0 ∧
    loopStep 10 60 ⟨1, none⟩ .probeFail = (⟨2, none⟩, [.sleep 60]) ∧
    (loopStep 10 60 ⟨1, none⟩ .probeFail).2 ≠ [.sleep (min (2 ^ 2) 60)] := by
  decide

/-- C1 (amended): the multi-tier backoff applies only to iterations
that fail with an in-iteration exception: with post-increment counter
`f`, if `f < 10` the iteration sleeps `min(2^f, 60)` seconds in place
of the schedule sleep, and once `f ≥ 10` it sleeps the 300-second
cooldown and resets the counter to 0.  Iterations ending in a probe
failure or a publish failure increment the counter but sleep the
normal 60-second schedule sleep. -/
theorem C1_backoff_exception_only (s : LoopState) (ip : String) :
    (s.consecutive_errors + 1 < 10 →
      loopStep 10 60 s .exc =
        ({ s with consecutive_errors := s.consecutive_errors + 1 },
         [.sleep (min (2 ^ (s.consecutive_errors + 1)) 60)])) ∧
    (10 ≤ s.consecutive_errors + 1 →
      loopStep 10 60 s .exc =
        ({ s with consecutive_errors := 0 }, [.sleep 300])) ∧
    (loopStep 10 60 s .probeFail).2 = [.sleep 60] ∧
    (s.last_successful_ip ≠ some ip →
      (loopStep 10 60 s (.probeOk ip false)).2 =
        [.publishAttempt ip false, .sleep 60]) := by
  refine ⟨?_, ?_, ?_, ?_⟩
  · intro h
    simp [loopStep, Nat.not_le.mpr h]
  · intro h
    simp [loopStep, h]
  · simp [loopStep]
  · intro h
    simp [loopStep, h]

/-- C1 (witness): the amended backoff rules evaluated at concrete
states — an exception at counter 0 sleeps `min(2^1, 60)`, an exception
at counter 9 sleeps 300 and resets, and probe/publish failures sleep
the 60-second schedule interval. -/
theorem C1_backoff_exception_only_witness :
    loopStep 10 60 ⟨0, none⟩ IterInput.exc =
      (⟨1, none⟩, [.sleep (min (2 ^ 1) 60)]) ∧
    loopStep 10 60 ⟨9, none⟩ IterInput.exc = (⟨0, none⟩, [.sleep 300]) ∧
    (loopStep 10 60 ⟨0, none⟩ IterInput.probeFail).2 = [.sleep 60] ∧
    (loopStep 10 60 ⟨0, none⟩ (IterInput.probeOk "203.0.113.7" false)).2 =
      [.publishAttempt "203.0.113.7" false, .sleep 60] :=
  ⟨(C1_backoff_exception_only ⟨0, none⟩ "203.0.113.7").1 (by decide),
   (C1_backoff_exception_only ⟨9, none⟩ "203.0.113.7").2.1 (by decide),
   (C1_backoff_exception_only ⟨0, none⟩ "203.0.113.7").2.2.1,
   (C1_backoff_exception_only ⟨0, none⟩ "203.0.113.7").2.2.2 (by decide)⟩

/-- C2 (counterexample): the claim asserts the counter increases by
exactly 1 after ANY iteration ending in an exception, with no other
transitions.  In the code, when the post-increment value reaches the
threshold the same iteration resets the counter to 0 after the
cooldown: at counter 9 an exception iteration ends with the counter at
0, not 10. -/
theorem C2_counterexample :
    (loopStep 10 60 ⟨9, none⟩ .exc).1.consecutive_errors = 0 ∧
    (loopStep 10 60 ⟨9, none⟩ .exc).1.consecutive_errors ≠ 9 + 1 := by
  decide

/-- C2 (amended): `consecutive_errors` is reset to 0 after any
iteration ending in a successful publish or a change-detection skip,
and increases by exactly 1 after an iteration ending in a probe
failure, a publish failure, or an exception — except that an exception
iteration whose incremented count reaches the threshold (10) ends with
the counter reset to 0 after the cooldown sleep.  No other transitions
change it. -/
theorem C2_counter_transitions (s : LoopState) (ip : String) :
    (loopStep 10 60 s (.probeOk ip true)).1.consecutive_errors = 0 ∧
    (s.last_successful_ip = some ip →
      ∀ b, (loopStep 10 60 s (.probeOk ip b)).1.consecutive_errors = 0) ∧
    (s.last_successful_ip ≠ some ip →
      (loopStep 10 60 s (.probeOk ip false)).1.consecutive_errors =
        s.consecutive_errors + 1) ∧
    (loopStep 10 60 s .probeFail).1.consecutive_errors =
      s.consecutive_errors + 1 ∧
    (s.consecutive_errors + 1 < 10 →
      (loopStep 10 60 s .exc).1.consecutive_errors = s.consecutive_errors + 1) ∧
    (10 ≤ s.consecutive_errors + 1 →
      (loopStep 10 60 s .exc).1.consecutive_errors = 0) := by
  refine ⟨?_, ?_, ?_, ?_, ?_, ?_⟩
  · by_cases h : s.last_successful_ip = some ip
    · simp [loopStep, h]
    · simp [loopStep, h]
  · intro h b
    simp [loopStep, h]
  · intro h
    simp [loopStep, h]
  · simp [loopStep]
  · intro h
    simp [loopStep, Nat.not_le.mpr h]
  · intro h
    simp [loopStep, h]

/-- C2 (witness): the amended counter transitions evaluated at concrete
states covering success, skip, publish failure, probe failure, a
below-threshold exception and an at-threshold exception. -/
theorem C2_counter_transitions_witness :
    (loopStep 10 60 ⟨3, some "1.2.3.4"⟩
      (IterInput.probeOk "1.2.3.4" true)).1.consecutive_errors = 0 ∧
    (loopStep 10 60 ⟨3, some "1.2.3.4"⟩
      (IterInput.probeOk "1.2.3.4" false)).1.consecutive_errors = 0 ∧
    (loopStep 10 60 ⟨3, none⟩
      (IterInput.probeOk "1.2.3.4" false)).1.consecutive_errors = 3 + 1 ∧
    (loopStep 10 60 ⟨3, none⟩ IterInput.probeFail).1.consecutive_errors
      = 3 + 1 ∧
    (loopStep 10 60 ⟨3, none⟩ IterInput.exc).1.consecutive_errors = 3 + 1 ∧
    (loopStep 10 60 ⟨11, none⟩ IterInput.exc).1.consecutive_errors = 0 :=
  ⟨(C2_counter_transitions ⟨3, some "1.2.3.4"⟩ "1.2.3.4").1,
   (C2_counter_transitions ⟨3, some "1.2.3.4"⟩ "1.2.3.4").2.1 rfl false,
   (C2_counter_transitions ⟨3, none⟩ "1.2.3.4").2.2.1 (by decide),
   (C2_counter_transitions ⟨3, none⟩ "1.2.3.4").2.2.2.1,
   (C2_counter_transitions ⟨3, none⟩ "1.2.3.4").2.2.2.2.1 (by decide),
   (C2_counter_transitions ⟨11, none⟩ "1.2.3.4").2.2.2.2.2 (by decide)⟩

/-- C3: with change detection, if an iteration first observes `ip`
(`last_successful_ip ≠ some ip`) and publishes it successfully, a run
of `n` further iterations probing the same `ip` produces exactly one
store write in total (the first iteration's) and zero for the rest,
and `last_successful_ip` stays `ip`.  Moreover `last_successful_ip` is
updated only after a confirmed successful publish: a failed publish
leaves it unchanged, so the next iteration attempts the write again
(two failed-publish iterations make two write attempts). -/
theorem C3_change_detection_single_write (s : LoopState) (ip : String)
    (n : Nat) (b : Bool) (h : s.last_successful_ip ≠ some ip) :
    publishCount (loopRun 10 60 s
        (.probeOk ip true :: List.replicate n (.probeOk ip b))).2 = 1 ∧
    (loopRun 10 60 s
        (.probeOk ip true :: List.replicate n (.probeOk ip b))).1.last_successful_ip
      = some ip ∧
    (loopStep 10 60 s (.probeOk ip false)).1.last_successful_ip
      = s.last_successful_ip ∧
    publishCount (loopRun 10 60 s [.probeOk ip false, .probeOk ip false]).2 = 2 := by
  have hstep : loopStep 10 60 s (.probeOk ip true)
      = (⟨0, some ip⟩, [.publishAttempt ip true, .sleep 60]) := by
    simp [loopStep, h]
  have hskip := loopRun_skip ip b n ⟨0, some ip⟩ rfl
  refine ⟨?_, ?_, ?_, ?_⟩
  · simp only [loopRun, hstep]
    rw [publishCount_append, publishCount_pub, publishCount_sleep,
      publishCount_nil, hskip.1]
  · simp only [loopRun, hstep]
    exact hskip.2
  · simp [loopStep, h]
  · have hstepf : loopStep 10 60 s (.probeOk ip false)
        = ({ s with consecutive_errors := s.consecutive_errors + 1 },
           [.publishAttempt ip false, .sleep 60]) := by
      simp [loopStep, h]
    have h2 : ({ s with consecutive_errors := s.consecutive_errors + 1 }
        : LoopState).last_successful_ip ≠ some ip := h
    have hstepf2 : loopStep 10 60
        ({ s with consecutive_errors := s.consecutive_errors + 1 })
        (.probeOk ip false)
        = ({ s with consecutive_errors := s.consecutive_errors + 1 + 1 },
           [.publishAttempt ip false, .sleep 60]) := by
      simp [loopStep, h2]
    simp only [loopRun, hstepf, hstepf2]
    rw [publishCount_append, publishCount_append, publishCount_pub,
      publishCount_sleep]
    rfl

/-- C3 (witness): starting from the initial state, ten iterations all
observing `203.0.113.7` with the first publishing successfully yield
exactly one store write, and the failed-publish facts evaluated
concretely. -/
theorem C3_change_detection_single_write_witness :
    publishCount (loopRun 10 60 ⟨0, none⟩
        (.probeOk "203.0.113.7" true
          :: List.replicate 9 (.probeOk "203.0.113.7" true))).2 = 1 ∧
    (loopRun 10 60 ⟨0, none⟩
        (.probeOk "203.0.113.7" true
          :: List.replicate 9 (.probeOk "203.0.113.7" true))).1.last_successful_ip
      = some "203.0.113.7" ∧
    (loopStep 10 60 ⟨0, none⟩
        (.probeOk "203.0.113.7" false)).1.last_successful_ip = none ∧
    publishCount (loopRun 10 60 ⟨0, none⟩
        [.probeOk "203.0.113.7" false, .probeOk "203.0.113.7" false]).2 = 2 :=
  C3_change_detection_single_write ⟨0, none⟩ "203.0.113.7" 9 true (by decide)

/-- C4: with `REDIS_HOST` unset (falsy) and no cached client,
`get_redis_client` returns no client and leaves the world untouched (no
fresh connection attempt is consumed — no store network I/O), so every
`post_to_redis` call reports failure immediately with no `set` attempt,
no retry and no sleep.  At the loop level a run of `n` publish-failure
iterations merely increments the counter once per iteration while
sleeping only the normal 60-second schedule sleep — the 300-second
cooldown is never entered and the loop keeps running. -/
theorem C4_unconfigured_store_inert (w : RWorld) (so : Nat → Nat → SetOutcome)
    (s : LoopState) (ip : String) (n : Nat)
    (hc : w.cache = none) (hh : hostTruthy w.host = false)
    (hl : s.last_successful_ip ≠ some ip) :
    get_redis_client w = (none, w) ∧
    post_to_redis so w none 3 = (false, w, []) ∧
    (loopRun 10 60 s (List.replicate n (.probeOk ip false))).1.consecutive_errors
      = s.consecutive_errors + n ∧
    ((loopRun 10 60 s (List.replicate n (.probeOk ip false))).2.all
      (fun e => match e with | .sleep t => t == 60 | _ => true)) = true := by
  have h2 : get_redis_client w = (none, w) := by
    unfold get_redis_client
    rw [hc]
    unfold connect_catch connect_try
    cases hp : pyInt w.portStr with
    | none => rfl
    | some p => simp [hh]
  refine ⟨h2, ?_, (loopRun_pubfail ip n s hl).1, (loopRun_pubfail ip n s hl).2.2⟩
  unfold post_to_redis
  rw [h2]

/-- C4 (witness): a concrete world with no host configured — the
client is refused with the world unchanged, the publish reports
failure with an empty event list, and twelve consecutive
publish-failure iterations raise the counter to 12 while every sleep
stays at 60 seconds. -/
theorem C4_unconfigured_store_inert_witness :
    get_redis_client ⟨none, fun _ => true, none, "6379", [.success 3]⟩
      = (none, ⟨none, fun _ => true, none, "6379", [.success 3]⟩) ∧
    post_to_redis (fun _ _ => .ok)
      ⟨none, fun _ => true, none, "6379", [.success 3]⟩ none 3
      = (false, ⟨none, fun _ => true, none, "6379", [.success 3]⟩, []) ∧
    (loopRun 10 60 ⟨0, none⟩
      (List.replicate 12 (.probeOk "1.2.3.4" false))).1.consecutive_errors
      = 0 + 12 ∧
    ((loopRun 10 60 ⟨0, none⟩
      (List.replicate 12 (.probeOk "1.2.3.4" false))).2.all
      (fun e => match e with | .sleep t => t == 60 | _ => true)) = true :=
  C4_unconfigured_store_inert ⟨none, fun _ => true, none, "6379", [.success 3]⟩
    (fun _ _ => .ok) ⟨0, none⟩ "1.2.3.4" 12 rfl rfl (by decide)

/-- C5: the probe consults the endpoint list in order and the first
endpoint whose attempt loop accepts an address wins, for every choice
of remaining endpoints (they are not consulted); when every endpoint's
attempt loop yields nothing the probe returns `none` rather than
raising; a timeout with retries left sleeps `2 ^ attempt` seconds and
retries the same endpoint, while a timeout on the last attempt, a
request error or an unexpected exception ends the endpoint at once;
the two spec scenarios hold concretely: a valid `203.0.113.7` from the
first endpoint is returned without consulting the rest, and when the
first endpoint only times out while the second returns
`198.51.100.9`, the accepted address is `198.51.100.9`. -/
theorem C5_probe_endpoint_iteration (svc : Nat → ReqOutcome)
    (rest services : List (Nat → ReqOutcome)) (ip : String) (a r maxR : Nat) :
    ((serviceLoop svc 0 maxR).1 = some ip →
      get_public_ip (svc :: rest) maxR = some ip) ∧
    ((∀ s ∈ services, (serviceLoop s 0 maxR).1 = none) →
      get_public_ip services maxR = none) ∧
    (svc a = .timeout → 0 < r →
      serviceLoop svc a (r + 1) =
        ((serviceLoop svc (a + 1) r).1, 2 ^ a :: (serviceLoop svc (a + 1) r).2)) ∧
    (svc a = .timeout →
      serviceLoop svc a 1 = (none, [])) ∧
    (svc a = .reqError → serviceLoop svc a (r + 1) = (none, [])) ∧
    (svc a = .otherExc → serviceLoop svc a (r + 1) = (none, [])) ∧
    (∀ rest2, get_public_ip ((fun _ => .response 200 "203.0.113.7") :: rest2) 3
      = some "203.0.113.7") ∧
    get_public_ip [fun _ => .timeout, fun _ => .response 200 "198.51.100.9"] 3
      = some "198.51.100.9" := by
  refine ⟨?_, get_public_ip_exhausted maxR services, ?_, ?_, ?_, ?_, ?_, rfl⟩
  · intro h
    unfold get_public_ip
    rw [h]
  · intro ht hr
    conv_lhs => rw [serviceLoop]
    rw [ht, if_pos hr]
  · intro ht
    unfold serviceLoop
    rw [ht]
    rfl
  · intro h
    unfold serviceLoop
    rw [h]
  · intro h
    unfold serviceLoop
    rw [h]
  · intro rest2
    rfl

/-- C5 (witness): the endpoint-iteration rules evaluated at concrete
services — first-endpoint win with a second endpoint present,
exhaustion returning `none`, a timeout retrying the same endpoint
after a 1-second sleep, a last-attempt timeout, and request errors
abandoning the endpoint at once. -/
theorem C5_probe_endpoint_iteration_witness :
    get_public_ip ((fun _ => .response 200 "203.0.113.7")
        :: [fun _ => .response 200 "9.9.9.9"]) 3 = some "203.0.113.7" ∧
    get_public_ip [fun _ => ReqOutcome.reqError] 3 = none ∧
    serviceLoop (fun _ => .timeout) 0 3 =
      ((serviceLoop (fun _ => .timeout) 1 2).1,
       2 ^ 0 :: (serviceLoop (fun _ => .timeout) 1 2).2) ∧
    serviceLoop (fun _ => .timeout) 2 1 = (none, []) ∧
    serviceLoop (fun _ => ReqOutcome.reqError) 0 3 = (none, []) ∧
    serviceLoop (fun _ => ReqOutcome.otherExc) 0 3 = (none, []) ∧
    get_public_ip [fun _ => .timeout, fun _ => .response 200 "198.51.100.9"] 3
      = some "198.51.100.9" := by
  have h := C5_probe_endpoint_iteration (fun _ => .timeout) []
    [fun _ => ReqOutcome.reqError] "203.0.113.7" 0 2 3
  have h2 := C5_probe_endpoint_iteration (fun _ => .response 200 "203.0.113.7")
    [fun _ => .response 200 "9.9.9.9"] [] "203.0.113.7" 0 2 3
  have h3 := C5_probe_endpoint_iteration (fun _ => ReqOutcome.reqError) [] []
    "x" 0 2 3
  have h4 := C5_probe_endpoint_iteration (fun _ => ReqOutcome.otherExc) [] []
    "x" 0 2 3
  have h5 := C5_probe_endpoint_iteration (fun _ => .timeout) [] [] "x" 2 2 3
  refine ⟨h2.1 rfl, ?_, h.2.2.1 rfl (by decide), h5.2.2.2.1 rfl,
    h3.2.2.2.2.1 rfl, h4.2.2.2.2.2.1 rfl, h.2.2.2.2.2.2.2⟩
  refine h.2.1 ?_
  intro s hs
  simp only [List.mem_singleton] at hs
  subst hs
  rfl

/-- C6: the publish retry pipeline makes at most `remaining` (and at
the call level at most 3) store write attempts; a successful `set`
returns success at once; a non-connection failure is not retried and
is reported as failure immediately, with no reconnect and no sleep; a
connection failure on the last attempt reports failure; a connection
failure with retries left first asks `get_redis_client` for a
re-established connection before the next attempt — retrying on the
NEW handle, never resending over the dead one — and sleeps
`2 ^ attempt` seconds exactly when that reconnection fails (the next
attempt then runs against `None` and surfaces as an immediate
non-connection failure, as in the code). -/
theorem C6_publish_retry_policy (so : Nat → Nat → SetOutcome) (w : RWorld)
    (c : Nat) (a r : Nat) :
    setCount (post_loop so w (some c) a r).2.2 ≤ r ∧
    (∀ cl, setCount (post_to_redis so w cl 3).2.2 ≤ 3) ∧
    (so a c = .ok →
      post_loop so w (some c) a (r + 1) = (true, w, [.setAttempt a (some c)])) ∧
    (so a c = .otherError →
      post_loop so w (some c) a (r + 1) = (false, w, [.setAttempt a (some c)])) ∧
    (so a c = .connError →
      post_loop so w (some c) a 1 = (false, w, [.setAttempt a (some c)])) ∧
    (so a c = .connError → 0 < r →
      ((get_redis_client w).1 = none →
        post_loop so w (some c) a (r + 1) =
          ((post_loop so (get_redis_client w).2 none (a + 1) r).1,
           (post_loop so (get_redis_client w).2 none (a + 1) r).2.1,
           .setAttempt a (some c) :: .reconnect a :: .sleep (2 ^ a) ::
             (post_loop so (get_redis_client w).2 none (a + 1) r).2.2)) ∧
      (∀ c2, (get_redis_client w).1 = some c2 →
        post_loop so w (some c) a (r + 1) =
          ((post_loop so (get_redis_client w).2 (some c2) (a + 1) r).1,
           (post_loop so (get_redis_client w).2 (some c2) (a + 1) r).2.1,
           .setAttempt a (some c) :: .reconnect a ::
             (post_loop so (get_redis_client w).2 (some c2) (a + 1) r).2.2))) := by
  refine ⟨setCount_post_loop_le so r w (some c) a, ?_, ?_, ?_, ?_, ?_⟩
  · intro cl
    rcases cl with _ | c2
    · unfold post_to_redis
      rcases hg : get_redis_client w with ⟨g1, w2⟩
      cases g1 with
      | none => simp [setCount]
      | some c3 => exact setCount_post_loop_le so 3 w2 (some c3) 0
    · exact setCount_post_loop_le so 3 w (some c2) 0
  · intro hso
    simp [post_loop, hso]
  · intro hso
    simp [post_loop, hso]
  · intro hso
    simp [post_loop, hso]
  · intro hso hr
    rcases hg : get_redis_client w with ⟨g1, w2⟩
    constructor
    · intro hnone
      simp only at hnone
      subst hnone
      simp [post_loop, hso, hr, hg]
    · intro c2 hsome
      simp only at hsome
      subst hsome
      simp [post_loop, hso, hr, hg]

/-- C6 (witness): the retry policy evaluated at concrete oracles — an
immediate success, an immediate non-connection failure, a
last-attempt connection failure, a connection failure followed by a
successful reconnection and a successful retry on the new handle (no
sleep), and a connection failure whose reconnection fails (sleep of
`2 ^ 0 = 1`, next attempt on `None` failing at once). -/
theorem C6_publish_retry_policy_witness :
    post_loop (fun _ _ => .ok) ⟨none, fun _ => true, some "h", "6379", []⟩
      (some 5) 0 3
      = (true, ⟨none, fun _ => true, some "h", "6379", []⟩,
         [.setAttempt 0 (some 5)]) ∧
    post_loop (fun _ _ => .otherError) ⟨none, fun _ => true, some "h", "6379", []⟩
      (some 5) 0 3
      = (false, ⟨none, fun _ => true, some "h", "6379", []⟩,
         [.setAttempt 0 (some 5)]) ∧
    post_loop (fun _ _ => .connError) ⟨none, fun _ => true, some "h", "6379", []⟩
      (some 5) 2 1
      = (false, ⟨none, fun _ => true, some "h", "6379", []⟩,
         [.setAttempt 2 (some 5)]) ∧
    post_loop (fun a _ => if a == 0 then SetOutcome.connError else .ok)
      ⟨none, fun _ => true, some "h", "6379", [.success 7]⟩ (some 5) 0 3
      = (true, ⟨some 7, fun _ => true, some "h", "6379", []⟩,
         [.setAttempt 0 (some 5), .reconnect 0, .setAttempt 1 (some 7)]) ∧
    post_loop (fun a _ => if a == 0 then SetOutcome.connError else .ok)
      ⟨none, fun _ => true, none, "6379", []⟩ (some 5) 0 3
      = (false, ⟨none, fun _ => true, none, "6379", []⟩,
         [.setAttempt 0 (some 5), .reconnect 0, .sleep 1, .setAttempt 1 none]) ∧
    setCount (post_loop (fun _ _ => .connError)
      ⟨none, fun _ => true, none, "6379", []⟩ (some 5) 0 3).2.2 ≤ 3 := by
  refine ⟨?_, ?_, ?_, ?_, ?_, ?_⟩
  · exact (C6_publish_retry_policy (fun _ _ => .ok)
      ⟨none, fun _ => true, some "h", "6379", []⟩ 5 0 2).2.2.1 rfl
  · exact (C6_publish_retry_policy (fun _ _ => .otherError)
      ⟨none, fun _ => true, some "h", "6379", []⟩ 5 0 2).2.2.2.1 rfl
  · exact (C6_publish_retry_policy (fun _ _ => .connError)
      ⟨none, fun _ => true, some "h", "6379", []⟩ 5 2 0).2.2.2.2.1 rfl
  · exact (((C6_publish_retry_policy
      (fun a _ => if a == 0 then SetOutcome.connError else .ok)
      ⟨none, fun _ => true, some "h", "6379", [.success 7]⟩ 5 0 2).2.2.2.2.2
      rfl (by decide)).2 7 rfl).trans rfl
  · exact (((C6_publish_retry_policy
      (fun a _ => if a == 0 then SetOutcome.connError else .ok)
      ⟨none, fun _ => true, none, "6379", []⟩ 5 0 2).2.2.2.2.2
      rfl (by decide)).1 rfl).trans rfl
  · exact (C6_publish_retry_policy (fun _ _ => .connError)
      ⟨none, fun _ => true, none, "6379", []⟩ 5 0 3).1

/-- C7: `get_redis_client` pings the cached client before reuse —
a healthy cached handle is returned as is with no connect, and on a
failed ping the handle is discarded and a fresh connect runs before
the operation proceeds.  Composed with the publish pipeline: when the
loop's handle has been invalidated mid-run (its ping now fails) and
the store is reachable (the fresh connect yields a new handle on
which `set` succeeds), the next `post_to_redis` transparently
reconnects and succeeds with exactly one extra `set` attempt (two in
total) and no sleep. -/
theorem C7_connection_liveness_check (w : RWorld) (c c2 : Nat) (p : Int)
    (rest : List ConnectOutcome) (so : Nat → Nat → SetOutcome) :
    (w.cache = some c → w.pingOk c = true → get_redis_client w = (some c, w)) ∧
    (w.cache = some c → w.pingOk c = false →
      get_redis_client w = connect_catch { w with cache := none }) ∧
    (w.cache = some c → w.pingOk c = false → pyInt w.portStr = some p →
      hostTruthy w.host = true → w.connects = .success c2 :: rest →
      so 0 c = .connError → so 1 c2 = .ok →
      post_to_redis so w (some c) 3 =
        (true, { w with cache := some c2, connects := rest },
         [.setAttempt 0 (some c), .reconnect 0, .setAttempt 1 (some c2)])) := by
  refine ⟨?_, ?_, ?_⟩
  · intro hc hping
    unfold get_redis_client
    rw [hc]
    simp [hping]
  · intro hc hping
    unfold get_redis_client
    rw [hc]
    simp [hping]
  · intro hc hping hport hhost hconn hso0 hso1
    obtain ⟨cache, ping, host, port, conns⟩ := w
    simp only at hc hping hport hhost hconn
    subst hc hconn
    have hg : get_redis_client ⟨some c, ping, host, port, .success c2 :: rest⟩
        = (some c2, ⟨some c2, ping, host, port, rest⟩) := by
      unfold get_redis_client
      simp only [hping, Bool.false_eq_true, if_false]
      unfold connect_catch connect_try
      simp only [hport, hhost, if_true]
    unfold post_to_redis
    simp only [post_loop, hso0, hg, hso1]
    rfl

/-- C7 (witness): concrete worlds — a healthy cached handle 5 is
reused as is; an invalidated handle 5 (only handle 7 pings) is
discarded for a fresh connect; and the stale-handle `put` scenario
reconnects to handle 7 and succeeds with exactly two `set` attempts. -/
theorem C7_connection_liveness_check_witness :
    get_redis_client ⟨some 5, fun _ => true, some "h", "6379", []⟩
      = (some 5, ⟨some 5, fun _ => true, some "h", "6379", []⟩) ∧
    get_redis_client ⟨some 5, fun n => n == 7, some "h", "6379", [.success 7]⟩
      = connect_catch ⟨none, fun n => n == 7, some "h", "6379", [.success 7]⟩ ∧
    post_to_redis (fun a _ => if a == 0 then SetOutcome.connError else .ok)
      ⟨some 5, fun n => n == 7, some "h", "6379", [.success 7]⟩ (some 5) 3
      = (true, ⟨some 7, fun n => n == 7, some "h", "6379", []⟩,
         [.setAttempt 0 (some 5), .reconnect 0, .setAttempt 1 (some 7)]) :=
  ⟨(C7_connection_liveness_check ⟨some 5, fun _ => true, some "h", "6379", []⟩
      5 7 6379 [] (fun _ _ => .ok)).1 rfl rfl,
   (C7_connection_liveness_check
      ⟨some 5, fun n => n == 7, some "h", "6379", [.success 7]⟩ 5 7 6379 []
      (fun _ _ => .ok)).2.1 rfl rfl,
   (C7_connection_liveness_check
      ⟨some 5, fun n => n == 7, some "h", "6379", [.success 7]⟩ 5 7 6379 []
      (fun a _ => if a == 0 then SetOutcome.connError else .ok)).2.2
      rfl rfl rfl rfl rfl rfl rfl⟩

/-- C10: with no cached client and `REDIS_PORT` set to a non-integer
string, the `int` conversion raises `ValueError` inside the `try:`
body, the catch-all handler absorbs it — `get_redis_client` does not
propagate any exception and returns no client with the world untouched
— and subsequent publish attempts simply report failure with no `set`
attempt, exactly as when the store host is unset. -/
theorem C10_bad_port_caught (w : RWorld) (so : Nat → Nat → SetOutcome)
    (hc : w.cache = none) (hp : pyInt w.portStr = none) :
    connect_try w = .error (.valueError, w) ∧
    get_redis_client w = (none, w) ∧
    post_to_redis so w none 3 = (false, w, []) := by
  have h1 : connect_try w = .error (.valueError, w) := by
    unfold connect_try
    rw [hp]
  have h2 : get_redis_client w = (none, w) := by
    unfold get_redis_client
    rw [hc]
    unfold connect_catch
    rw [h1]
  refine ⟨h1, h2, ?_⟩
  unfold post_to_redis
  rw [h2]

/-- C10 (witness): `REDIS_PORT = "not-a-number"` with a host
configured — the conversion error is raised and caught, no client is
returned, and the publish reports failure without any write attempt. -/
theorem C10_bad_port_caught_witness :
    connect_try ⟨none, fun _ => true, some "myredis", "not-a-number", [.success 3]⟩
      = .error (.valueError,
          ⟨none, fun _ => true, some "myredis", "not-a-number", [.success 3]⟩) ∧
    get_redis_client
        ⟨none, fun _ => true, some "myredis", "not-a-number", [.success 3]⟩
      = (none,
         ⟨none, fun _ => true, some "myredis", "not-a-number", [.success 3]⟩) ∧
    post_to_redis (fun _ _ => .ok)
      ⟨none, fun _ => true, some "myredis", "not-a-number", [.success 3]⟩ none 3
      = (false,
         ⟨none, fun _ => true, some "myredis", "not-a-number", [.success 3]⟩,
         []) :=
  C10_bad_port_caught
    ⟨none, fun _ => true, some "myredis", "not-a-number", [.success 3]⟩
    (fun _ _ => .ok) rfl rfl

end PublicIp

namespace WhatsMyIp

/-- Helper: every address returned by the monitor variant of the probe
has a non-empty stripped body (and nothing more is checked). -/
theorem get_public_ip_nonempty (outcomes : List ReqOutcome) :
    ∀ ip, IPMonitor.get_public_ip outcomes = some ip →
      ip.data.isEmpty = false := by
  induction outcomes with
  | nil => intro ip h; simp [IPMonitor.get_public_ip] at h
  | cons o rest ih =>
    intro ip h
    unfold IPMonitor.get_public_ip at h
    cases o with
    | response status body =>
      by_cases h200 : status == 200
      · simp only [h200, if_true] at h
        by_cases he : (pyStrip body).data.isEmpty
        · simp only [he, if_true] at h
          exact ih ip h
        · simp only [he, Bool.false_eq_true, if_false] at h
          cases h
          exact Bool.eq_false_iff.mpr he
      · simp only [h200, Bool.false_eq_true, if_false] at h
        exact ih ip h
    | timeout => exact ih ip h
    | reqError => exact ih ip h
    | otherExc => exact ih ip h

/-- C8 (counterexample): the claim asserts that the IPMonitor variant
also subjects accepted addresses to dotted-quad/IPv6 shape validation.
It does not: a 200 response with the non-empty, shape-invalid body
`not-an-ip` is returned by `IPMonitor.get_public_ip` even though it
fails the publishing variant's `isValidIp` shape check. -/
theorem C8_counterexample :
    IPMonitor.get_public_ip [.response 200 "not-an-ip"] = some "not-an-ip" ∧
    isValidIp "not-an-ip" = false :=
  ⟨rfl, by decide⟩

/-- C8 (amended): every address accepted by the publishing probe
(`get_public_ip` of `scripts/public_ip.py`) is non-empty and passes
the dotted-quad shape check, an invalid body never being returned; the
IPMonitor variant guarantees only that an accepted address is
non-empty — an empty body is a failure for that endpoint in both
variants, but a non-empty shape-invalid body is accepted by the
monitor. -/
theorem C8_validation_per_variant (services : List (Nat → ReqOutcome))
    (outcomes : List ReqOutcome) (maxR : Nat) (ip ip2 : String) :
    (PublicIp.get_public_ip services maxR = some ip → isValidIp ip = true) ∧
    (PublicIp.get_public_ip services maxR = some ip → ip.data.isEmpty = false) ∧
    (IPMonitor.get_public_ip outcomes = some ip2 → ip2.data.isEmpty = false) := by
  refine ⟨PublicIp.get_public_ip_valid services maxR ip, ?_,
    get_public_ip_nonempty outcomes ip2⟩
  intro h
  have hv := PublicIp.get_public_ip_valid services maxR ip h
  unfold isValidIp at hv
  have hand := Bool.and_elim_left hv
  simpa using hand

/-- C8 (witness): the validation guarantees evaluated at concrete
probes — the publishing variant accepting `203.0.113.7` (valid and
non-empty), and the monitor variant accepting the stripped non-empty
`9.9.9.9`. -/
theorem C8_validation_per_variant_witness :
    isValidIp "203.0.113.7" = true ∧
    ("203.0.113.7".data.isEmpty = false) ∧
    ("9.9.9.9".data.isEmpty = false) :=
  ⟨(C8_validation_per_variant [fun _ => .response 200 "203.0.113.7"] [] 3
      "203.0.113.7" "x").1 rfl,
   (C8_validation_per_variant [fun _ => .response 200 "203.0.113.7"] [] 3
      "203.0.113.7" "x").2.1 rfl,
   (C8_validation_per_variant [] [.response 200 " 9.9.9.9 "] 3 "x" "9.9.9.9").2.2
     rfl⟩

/-- C9 (counterexample): the claim asserts a stop requested during the
inter-iteration sleep is honored promptly (the background unit
observes the flag and exits within the bounded 2-second wait) rather
than after the full interval.  In the code the sleep is never aborted:
with the monitor's 3600-second interval, a stop at time 1 leaves the
thread asleep until time 3600 — far beyond the 2-second join window —
and with a 60-second sleep a stop at time 30 is observed only at time
60, not within a small bounded delay; `stop_monitoring` itself returns
at time 3, its join having timed out with the thread still running. -/
theorem C9_counterexample :
    threadExitTime 3600 1 = 3600 ∧ ¬ threadExitTime 3600 1 ≤ 1 + 2 ∧
    threadExitTime 60 30 = 60 ∧ ¬ threadExitTime 60 30 ≤ 30 + 2 ∧
    stopReturnTime 3600 1 = 3 := by
  decide

/-- C9 (amended): `stop_monitoring` sets the running flag to false and
waits at most 2 seconds without killing the thread — the caller is
unblocked by `stopTime + 2` regardless — but the sleeping loop
observes the flag only at a wake instant (a multiple of the interval):
the thread exits no earlier than the stop and no later than one full
interval after it, not within the 2-second wait. -/
theorem C9_stop_timing (interval stopTime : Nat) (hi : 0 < interval)
    (_hs : 0 < stopTime) :
    stopTime ≤ threadExitTime interval stopTime ∧
    threadExitTime interval stopTime ≤ stopTime + interval ∧
    threadExitTime interval stopTime % interval = 0 ∧
    stopReturnTime interval stopTime ≤ stopTime + 2 := by
  have hmlt : stopTime % interval < interval := Nat.mod_lt stopTime hi
  have hdm : interval * (stopTime / interval) + stopTime % interval = stopTime :=
    Nat.div_add_mod stopTime interval
  by_cases h : stopTime % interval = 0
  · have he : threadExitTime interval stopTime = stopTime := by
      simp [threadExitTime, h]
    refine ⟨le_of_eq he.symm, ?_, ?_, ?_⟩
    · rw [he]; omega
    · rw [he]; exact h
    · exact le_trans (Nat.min_le_right _ _) (le_refl _)
  · have he : threadExitTime interval stopTime
        = (stopTime / interval + 1) * interval := by
      simp [threadExitTime, h]
    have hmul : (stopTime / interval + 1) * interval
        = interval * (stopTime / interval) + interval := by ring
    refine ⟨?_, ?_, ?_, ?_⟩
    · rw [he, hmul]
      calc stopTime = interval * (stopTime / interval) + stopTime % interval :=
            hdm.symm
        _ ≤ interval * (stopTime / interval) + interval :=
            Nat.add_le_add_left hmlt.le _
    · rw [he, hmul]
      have h2 : interval * (stopTime / interval) ≤ stopTime := by
        calc interval * (stopTime / interval)
            ≤ interval * (stopTime / interval) + stopTime % interval :=
              Nat.le_add_right _ _
          _ = stopTime := hdm
      exact Nat.add_le_add_right h2 interval
    · rw [he]
      exact Nat.mul_mod_left _ _
    · exact Nat.min_le_right _ _

/-- C9 (witness): the stop-timing bounds evaluated at the monitor's
3600-second interval with a stop at time 1: the thread exits between
times 1 and 3601 at a wake instant, and the stopping caller is
unblocked by time 3. -/
theorem C9_stop_timing_witness :
    1 ≤ threadExitTime 3600 1 ∧ threadExitTime 3600 1 ≤ 1 + 3600 ∧
    threadExitTime 3600 1 % 3600 = 0 ∧ stopReturnTime 3600 1 ≤ 1 + 2 :=
  C9_stop_timing 3600 1 (by decide) (by decide)

end WhatsMyIp

end Multiarch
